import Mathlib

/-!
Shallow embedding of the bronya account-and-session backend
(`app/models/session.py`, `app/models/account.py`, `app/utils/security.py`,
`app/routes/account.py`, `app/db.py`).

Modelling conventions:
* `datetime.now()` is an explicit `now : Nat` parameter (Unix seconds).
* Randomness (`secrets.token_hex`, `secrets.token_urlsafe`) is an explicit
  string parameter at each call site that draws it.
* JWT (PyJWT, HS256) is modelled symbolically: a token is either a payload
  together with the HMAC signature it carries — represented as the pair
  (key, payload) the signature was computed over — or malformed garbage.
  `jwt.decode` verifies the signature first, then the `exp` claim
  (PyJWT raises `ExpiredSignatureError` when `exp <= now`); every decode
  failure is a subclass of `InvalidTokenError`, with `ExpiredSignatureError`
  the one the source catches separately.
* argon2 (`argon2-cffi`) is modelled symbolically: a stored hash string is
  either a well-formed hash of a password with a salt, or a malformed
  string. `PasswordHasher.verify` raises `VerifyMismatchError` on mismatch
  and `InvalidHashError` when the hash string cannot be parsed.
* The SurrealDB storage collaborator is a record store: a list of accounts
  and a list of sessions keyed by their record ids; `upsert` replaces the
  record with the same id (or inserts), `select` finds by id. The
  `DEFINE EVENT delete_sessions` trigger from `app/db.py` runs on account
  delete and removes every session whose `account` field is the deleted id.
* Python exceptions that may escape a function are modelled with `Except`.
-/

/-- `surrealdb.RecordID`: a table name plus a record key. -/
structure RecordID where
  table : String
  id : String
deriving DecidableEq, Repr

/-- `JwtPayload` (session.py): the claims carried by a session token. -/
structure JwtPayload where
  account_id : String
  random_part : String
  device_id : String
  iat : Nat
  exp : Nat
deriving DecidableEq, Repr

/-- A token string: either a signed JWT carrying payload `payload` and a
signature computed with `sigKey` over `sigPayload` (symbolic HMAC-SHA256),
or a malformed string that fails JWT parsing. An honestly encoded token has
`sigPayload = payload`. -/
inductive TokenStr where
  | signed (payload : JwtPayload) (sigKey : String) (sigPayload : JwtPayload)
  | malformed (raw : String)
deriving DecidableEq, Repr

/-- The PyJWT exceptions distinguished by the source: `ExpiredSignatureError`
and every other `InvalidTokenError` (decode, signature, …). -/
inductive JwtError where
  | expiredSignature
  | invalidToken
deriving DecidableEq, Repr

/-- `jwt.decode(token, key, algorithms=["HS256"])` at time `now`:
parse, verify the signature with `key`, then validate the `exp` claim. -/
def jwtDecode (t : TokenStr) (key : String) (now : Nat) :
    Except JwtError JwtPayload :=
  match t with
  | .malformed _ => .error .invalidToken
  | .signed p sigKey sigPayload =>
    if sigKey = key ∧ sigPayload = p then
      if p.exp ≤ now then .error .expiredSignature
      else .ok p
    else .error .invalidToken

/-- `jwt.encode(payload.model_dump(), key, algorithm="HS256")`. -/
def jwtEncode (p : JwtPayload) (key : String) : TokenStr :=
  .signed p key p

/-- `Session` (session.py): per-device record binding an account to a
signing key and a current token. -/
structure Session where
  id : RecordID
  account : RecordID
  key : String
  token : TokenStr
  created_at : Nat
  updated_at : Nat
deriving DecidableEq, Repr

/-- 30 days in seconds: `timedelta(days=30).total_seconds()`. -/
def thirtyDays : Nat := 30 * 86400

/-- `Session.generate_token(account, device_id, key)`: build the payload
with `iat = now`, `exp = now + 30 days` and a random nonce, and sign it
with `key`. `nonce` stands for `secrets.token_hex(8)`. -/
def Session.generate_token (account : RecordID) (device_id : String)
    (key : String) (nonce : String) (now : Nat) : TokenStr :=
  jwtEncode
    { account_id := account.id
      random_part := nonce
      device_id := device_id
      iat := now
      exp := now + thirtyDays }
    key

/-- `Session.is_valid_token(token)` at time `now`: decode with the
session's stored key; both `jwt.ExpiredSignatureError` and
`jwt.InvalidTokenError` are caught and resolved to `false`. -/
def Session.is_valid_token (s : Session) (token : TokenStr) (now : Nat) :
    Bool :=
  match jwtDecode token s.key now with
  | .ok _ => true
  | .error .expiredSignature => false
  | .error .invalidToken => false

/-- `Session.generate(account, device_id)`: fresh session whose id is the
session-namespaced device id, with a fresh key (`utils.generate_key(32)`,
passed in as `key`) and an initial token. -/
def Session.generate (account : RecordID) (device_id : String)
    (key : String) (nonce : String) (now : Nat) : Session :=
  { id := ⟨"session", device_id⟩
    account := account
    key := key
    token := Session.generate_token account device_id key nonce now
    created_at := now
    updated_at := now }

/-- `Session.refresh()`: re-issue the token with the existing key; no other
field is touched. -/
def Session.refresh (s : Session) (nonce : String) (now : Nat) : Session :=
  { s with token := Session.generate_token s.account s.id.id s.key nonce now }

/-- A stored password-hash string (security.py): either a well-formed
argon2 hash of `password` with `salt`, or a string the argon2 parser
rejects. -/
inductive HashStr where
  | argon2 (password : String) (salt : String)
  | malformed (raw : String)
deriving DecidableEq, Repr

/-- The argon2-cffi exceptions relevant to `PasswordHasher.verify`:
`VerifyMismatchError` (wrong password) and `InvalidHashError` (hash string
cannot be parsed). Only the former is a `VerifyMismatchError`. -/
inductive Argon2Error where
  | verifyMismatch
  | invalidHash
deriving DecidableEq, Repr

/-- `argon2.PasswordHasher().verify(hash, password)`: raises
`InvalidHashError` on a malformed hash, `VerifyMismatchError` on a
mismatch, and returns `True` on success. -/
def argon2Verify (hashed : HashStr) (password : String) :
    Except Argon2Error Bool :=
  match hashed with
  | .malformed _ => .error .invalidHash
  | .argon2 pw _ =>
    if password = pw then .ok true else .error .verifyMismatch

/-- `utils.hash_password(password, salt)`:
`pwd_hasher.hash(password, salt=salt)`. -/
def hash_password (password : String) (salt : String) : HashStr :=
  .argon2 password salt

/-- `utils.verify_password(password, hashed_password)`: call
`pwd_hasher.verify` and catch only `argon2.exceptions.VerifyMismatchError`;
any other argon2 exception propagates to the caller. -/
def verify_password (password : String) (hashed_password : HashStr) :
    Except Argon2Error Bool :=
  match argon2Verify hashed_password password with
  | .ok _ => .ok true
  | .error .verifyMismatch => .ok false
  | .error .invalidHash => .error .invalidHash

/-- `Profile` (account.py): user profile data transfer object. -/
structure Profile where
  avatar : Option String := none
  bio : Option String := none
  phone : Option String := none
  location : Option String := none
  website : Option String := none
  github : Option String := none
deriving DecidableEq, Repr

/-- `Account` (account.py): user account database model. -/
structure Account where
  id : Option RecordID
  username : String
  password : HashStr
  email : Option String
  profile : Profile
  rating : Int
  credit_score : Int
  is_admin : Bool
  is_active : Bool
  created_at : Nat
  updated_at : Nat
deriving DecidableEq, Repr

/-- The storage collaborator: the SurrealDB record store reached through
the shared connection, restricted to the two tables the core uses. -/
structure DB where
  accounts : List Account
  sessions : List Session

/-- `db.select(id)` on the session table, as used by
`Session.get_by_id`: the record with that id, if any. -/
def Session.get_by_id (db : DB) (rid : RecordID) : Option Session :=
  db.sessions.find? fun s => decide (s.id = rid)

/-- `db.upsert(id, fields)` on the session table: replace the record with
this id, or insert it. -/
def DB.upsert_session (db : DB) (s : Session) : DB :=
  { db with
    sessions := s :: db.sessions.filter fun t => decide (¬ t.id = s.id) }

/-- `Session.save_on(db)`: stamp `updated_at = now`, upsert, and return the
saved record together with the new store. -/
def Session.save_on (s : Session) (db : DB) (now : Nat) : Session × DB :=
  let saved := { s with updated_at := now }
  (saved, db.upsert_session saved)

/-- `Session.refresh_and_save_on(db)`: refresh, then save; returns the
(refreshed, saved) session object. -/
def Session.refresh_and_save_on (s : Session) (db : DB)
    (nonce : String) (now : Nat) : Session × DB :=
  ((s.refresh nonce now).save_on db now)

/-- `Session.delete_on(db)` / `db.delete(id)` on the session table. -/
def DB.delete_session (db : DB) (rid : RecordID) : DB :=
  { db with sessions := db.sessions.filter fun t => decide (¬ t.id = rid) }

/-- `Account.get_by_identity(db, identity)`: the parameterized query
`SELECT * FROM account WHERE username = $identity OR email = $identity`,
returning a record only when the result has exactly one row. -/
def Account.get_by_identity (db : DB) (identity : String) : Option Account :=
  match db.accounts.filter
      (fun a => decide (a.username = identity ∨ a.email = some identity)) with
  | [a] => some a
  | _ => none

/-- `Account.get_by_id`: `db.select(id)` on the account table. -/
def Account.get_by_id (db : DB) (rid : RecordID) : Option Account :=
  db.accounts.find? fun a => decide (a.id = some rid)

/-- The `DEFINE EVENT OVERWRITE delete_sessions ON TABLE account` trigger
installed by `init_surrealdb` (db.py): when an account record is deleted,
`DELETE session WHERE account = $before.id`. -/
def DB.delete_sessions_event (db : DB) (aid : RecordID) : DB :=
  { db with sessions := db.sessions.filter fun t => decide (¬ t.account = aid) }

/-- `db.delete(id)` on the account table, with the SurrealDB event above
firing when a record was actually deleted: removes the account record and
every session whose `account` field names it. -/
def DB.delete_account (db : DB) (aid : RecordID) : Option Account × DB :=
  match db.accounts.find? (fun a => decide (a.id = some aid)) with
  | none => (none, db)
  | some a =>
    (some a,
      DB.delete_sessions_event
        { db with accounts := db.accounts.filter fun b => decide (¬ b.id = some aid) }
        aid)

/-- `Account.delete_on(db)`: `None` when the in-memory account has no id,
otherwise delete the record (firing the cascade event). -/
def Account.delete_on (a : Account) (db : DB) : Option Account × DB :=
  match a.id with
  | none => (none, db)
  | some aid => db.delete_account aid

/-- `Credentials` (account.py): the tuple a caller presents to prove
authorization. -/
structure Credentials where
  user_id : String
  username : String
  token : TokenStr
  device_id : String
deriving DecidableEq, Repr

/-- `Credentials.is_valid_on(db)` at time `now`: look up the session under
`RecordID("session", device_id)`; absent → `false`; otherwise require the
session's account id to equal `user_id` and the token to validate against
the session's stored key. -/
def Credentials.is_valid_on (c : Credentials) (db : DB) (now : Nat) : Bool :=
  match Session.get_by_id db ⟨"session", c.device_id⟩ with
  | none => false
  | some s => decide (s.account.id = c.user_id) && s.is_valid_token c.token now

/-- `Login` (account.py): login data transfer object (validated fields). -/
structure Login where
  identity : String
  password : String
  device_id : String
deriving DecidableEq, Repr

/-- `UserToken` (routes/account.py): the payload returned by register and
login. -/
structure UserToken where
  user_id : String
  username : String
  token : TokenStr
deriving DecidableEq, Repr

/-- `Response` (models/__init__.py): the fixed response envelope. -/
structure Response (α : Type) where
  message : String
  data : Option α := none
  code : Nat := 0
deriving DecidableEq, Repr

/-- The `login` route handler (routes/account.py). `key` stands for the
fresh random key drawn when a new session must be generated, `nonce` for
the random part of the token issued on this request. A password-verification
exception escaping `utils.verify_password` propagates (`Except.error`). -/
def login (db : DB) (data : Login) (key : String) (nonce : String)
    (now : Nat) : Except Argon2Error (DB × Response UserToken) :=
  match Account.get_by_identity db data.identity with
  | none => .ok (db, { message := "Account not found.", code := 4 })
  | some account =>
    match account.id with
    | none => .ok (db, { message := "Account not found.", code := 4 })
    | some aid =>
      match verify_password data.password account.password with
      | .error e => .error e
      | .ok ok =>
        if ok then
          match Session.get_by_id db ⟨"session", data.device_id⟩ with
          | some exist_session =>
            let (session, db') :=
              exist_session.refresh_and_save_on db nonce now
            .ok (db',
              { message := "Logged in successfully."
                data := some
                  { user_id := aid.id
                    username := account.username
                    token := session.token } })
          | none =>
            let (session, db') :=
              (Session.generate aid data.device_id key nonce now).save_on db now
            .ok (db',
              { message := "Logged in successfully."
                data := some
                  { user_id := aid.id
                    username := account.username
                    token := session.token } })
        else .ok (db, { message := "Invalid password.", code := 2 })

/-! Sample records used by the concrete witnesses. -/

/-- A sample account record id. -/
def aliceId : RecordID := ⟨"account", "alice"⟩

/-- A sample account owned by `aliceId`. -/
def aliceAccount : Account :=
  { id := some aliceId
    username := "alice01"
    password := .argon2 "longpassword1" "salt"
    email := some "a@example.com"
    profile := ⟨none, none, none, none, none, none⟩
    rating := 0
    credit_score := 60
    is_admin := false
    is_active := true
    created_at := 0
    updated_at := 0 }

/-- A sample session for device `d1` whose key is `"k"`. -/
def d1Session : Session :=
  { id := ⟨"session", "d1"⟩
    account := aliceId
    key := "k"
    token := .malformed "old"
    created_at := 0
    updated_at := 0 }

/-! Theorems. -/

/-- C1: `Credentials.is_valid_on` returns `false` when no session exists
under the credentials' device id, `false` when the found session's account
id differs from `user_id`, `false` when the token fails validation against
the session's stored key, and `true` exactly when all three conditions
hold. -/
theorem is_valid_on_spec (c : Credentials) (db : DB) (now : Nat) :
    (Session.get_by_id db ⟨"session", c.device_id⟩ = none →
      c.is_valid_on db now = false) ∧
    (∀ s, Session.get_by_id db ⟨"session", c.device_id⟩ = some s →
      s.account.id ≠ c.user_id → c.is_valid_on db now = false) ∧
    (∀ s, Session.get_by_id db ⟨"session", c.device_id⟩ = some s →
      s.is_valid_token c.token now = false → c.is_valid_on db now = false) ∧
    (c.is_valid_on db now = true ↔
      ∃ s, Session.get_by_id db ⟨"session", c.device_id⟩ = some s ∧
        s.account.id = c.user_id ∧ s.is_valid_token c.token now = true) := by
  cases h : Session.get_by_id db ⟨"session", c.device_id⟩ with
  | none => simp [Credentials.is_valid_on, h]
  | some s =>
    simp only [Credentials.is_valid_on, h, and_assoc]
    refine ⟨by simp, fun s' hs' => ?_, fun s' hs' => ?_, ?_⟩
    · cases hs'
      intro hne
      simp [hne]
    · cases hs'
      intro hbad
      simp [hbad]
    · simp

/-- Witness for C1 at a concrete input: lookup in the empty store is
absent, so the credentials are rejected. -/
theorem is_valid_on_spec_witness :
    Credentials.is_valid_on ⟨"alice", "alice01", .malformed "t", "d1"⟩
      ⟨[], []⟩ 0 = false :=
  (is_valid_on_spec ⟨"alice", "alice01", .malformed "t", "d1"⟩ ⟨[], []⟩ 0).1 rfl

/-- C10: `is_valid_on` never reads the credentials' `username` field: two
credential tuples agreeing on `user_id`, `token` and `device_id` evaluate
to the same boolean on the same store. -/
theorem is_valid_on_username_independent (c₁ c₂ : Credentials) (db : DB)
    (now : Nat) (hu : c₁.user_id = c₂.user_id) (ht : c₁.token = c₂.token)
    (hd : c₁.device_id = c₂.device_id) :
    c₁.is_valid_on db now = c₂.is_valid_on db now := by
  simp [Credentials.is_valid_on, hu, ht, hd]

/-- Witness for C10: two credentials differing only in username evaluate
equal on a concrete store. -/
theorem is_valid_on_username_independent_witness :
    Credentials.is_valid_on ⟨"alice", "alice01", .malformed "t", "d1"⟩
      ⟨[], [d1Session]⟩ 3 =
    Credentials.is_valid_on ⟨"alice", "someoneelse", .malformed "t", "d1"⟩
      ⟨[], [d1Session]⟩ 3 :=
  is_valid_on_username_independent _ _ _ _ rfl rfl rfl

/-- C6: `Session.refresh` leaves the session's key, id, account and
creation timestamp (and updated-at) unchanged; the token is replaced with a
freshly issued one. -/
theorem refresh_frame (s : Session) (nonce : String) (now : Nat) :
    (s.refresh nonce now).key = s.key ∧
    (s.refresh nonce now).id = s.id ∧
    (s.refresh nonce now).account = s.account ∧
    (s.refresh nonce now).created_at = s.created_at ∧
    (s.refresh nonce now).updated_at = s.updated_at ∧
    (s.refresh nonce now).token =
      Session.generate_token s.account s.id.id s.key nonce now :=
  ⟨rfl, rfl, rfl, rfl, rfl, rfl⟩

/-- C7: a token that validates against a session's key still validates
after `refresh`, because `refresh` never rotates the key. -/
theorem refresh_preserves_token_validity (s : Session) (t : TokenStr)
    (nonce : String) (now now' : Nat)
    (h : s.is_valid_token t now' = true) :
    (s.refresh nonce now).is_valid_token t now' = true := h

/-- Witness for C7: a concrete previously issued token still validates
after the session is refreshed. -/
theorem refresh_preserves_token_validity_witness :
    (d1Session.refresh "nonce2" 5).is_valid_token
      (Session.generate_token aliceId "d1" "k" "nonce1" 0) 0 = true :=
  refresh_preserves_token_validity d1Session
    (Session.generate_token aliceId "d1" "k" "nonce1" 0) "nonce2" 5 0
    (by decide)

/-- C4 counterexample: `verify_password` does not return `false` on a
malformed hash string — only `VerifyMismatchError` is caught, so the
`InvalidHashError` raised by the argon2 parser propagates to the caller. -/
theorem verify_password_malformed_raises :
    verify_password "password1" (.malformed "not-an-argon2-hash") =
      .error .invalidHash := rfl

/-- C4 (amended): `verify_password` returns `false` without throwing when
the password does not match a well-formed hash, `true` on a match, but on a
malformed hash string it propagates argon2's `InvalidHashError` instead of
returning `false`. -/
theorem verify_password_spec (password pw salt raw : String) :
    (password ≠ pw →
      verify_password password (.argon2 pw salt) = .ok false) ∧
    verify_password password (.argon2 password salt) = .ok true ∧
    verify_password password (.malformed raw) = .error .invalidHash := by
  refine ⟨fun hne => ?_, ?_, rfl⟩
  · simp [verify_password, argon2Verify, hne]
  · simp [verify_password, argon2Verify]

/-- Witness for C4 (amended) at concrete strings. -/
theorem verify_password_spec_witness :
    verify_password "password1" (.argon2 "password2" "salt") = .ok false :=
  (verify_password_spec "password1" "password2" "salt" "raw").1 (by decide)

/-- C2: a token issued by `generate_token` validates immediately (at the
issuing time) against a session holding the same key, and fails validation
against a session holding any different key. -/
theorem generate_token_round_trip (account : RecordID)
    (device_id key key' nonce : String) (now : Nat) (s s' : Session)
    (hk : s.key = key) (hk' : s'.key = key') (hne : key' ≠ key) :
    s.is_valid_token
      (Session.generate_token account device_id key nonce now) now = true ∧
    s'.is_valid_token
      (Session.generate_token account device_id key nonce now) now = false := by
  constructor
  · simp [Session.is_valid_token, Session.generate_token, jwtEncode,
      jwtDecode, hk, thirtyDays]
  · have hke : ¬ (key = key') := fun h => hne h.symm
    simp [Session.is_valid_token, Session.generate_token, jwtEncode,
      jwtDecode, hk', hke]

/-- Witness for C2 at a concrete account, device, key pair and a second
session with a different key. -/
theorem generate_token_round_trip_witness :
    d1Session.is_valid_token
      (Session.generate_token aliceId "d1" "k" "nonce1" 0) 0 = true ∧
    ({ d1Session with key := "other" } : Session).is_valid_token
      (Session.generate_token aliceId "d1" "k" "nonce1" 0) 0 = false :=
  generate_token_round_trip aliceId "d1" "k" "other" "nonce1" 0
    d1Session { d1Session with key := "other" } rfl rfl (by decide)

/-- C3: `is_valid_token` resolves every decoding failure to `false` rather
than re-raising: every `jwt.decode` error yields `false`, and in particular
a malformed token, a token whose signature was not produced by the
session's key over its own payload, and an expired token all yield
`false`. -/
theorem is_valid_token_never_raises (s : Session) (now : Nat) :
    (∀ t e, jwtDecode t s.key now = .error e →
      s.is_valid_token t now = false) ∧
    (∀ raw, s.is_valid_token (.malformed raw) now = false) ∧
    (∀ p sigKey sigPayload, ¬(sigKey = s.key ∧ sigPayload = p) →
      s.is_valid_token (.signed p sigKey sigPayload) now = false) ∧
    (∀ p, p.exp ≤ now → s.is_valid_token (.signed p s.key p) now = false) := by
  refine ⟨fun t e h => ?_, fun raw => rfl, fun p sigKey sigPayload hbad => ?_,
    fun p hexp => ?_⟩
  · unfold Session.is_valid_token
    rw [h]
    cases e <;> rfl
  · simp [Session.is_valid_token, jwtDecode, hbad]
  · simp [Session.is_valid_token, jwtDecode, hexp]

/-- Witness for C3: a concrete forged token (signed with a different key)
is rejected with `false`, not an exception. -/
theorem is_valid_token_never_raises_witness :
    d1Session.is_valid_token
      (.signed ⟨"alice", "n", "d1", 0, 999⟩ "other" ⟨"alice", "n", "d1", 0, 999⟩)
      0 = false :=
  (is_valid_token_never_raises d1Session 0).2.2.1
    ⟨"alice", "n", "d1", 0, 999⟩ "other" ⟨"alice", "n", "d1", 0, 999⟩
    (by decide)

/-- C5: every issued token's `exp` claim equals its `iat` claim plus
30 days, and any token whose expiry has passed fails validation even when
it is correctly signed with the session's own key. -/
theorem token_expiry_spec (account : RecordID)
    (device_id key nonce : String) (now : Nat) :
    (∃ p : JwtPayload,
      Session.generate_token account device_id key nonce now = jwtEncode p key ∧
      p.iat = now ∧ p.exp = p.iat + thirtyDays) ∧
    (∀ (s : Session) (p : JwtPayload) (now' : Nat), p.exp < now' →
      s.is_valid_token (.signed p s.key p) now' = false) := by
  refine ⟨⟨_, rfl, rfl, rfl⟩, fun s p now' hexp => ?_⟩
  simp [Session.is_valid_token, jwtDecode, Nat.le_of_lt hexp]

/-- Witness for C5: a concrete token whose expiry (second 2592000) has
passed is rejected at second 2592001 even with the correct key. -/
theorem token_expiry_spec_witness :
    d1Session.is_valid_token
      (Session.generate_token aliceId "d1" "k" "nonce1" 0) 2592001 = false :=
  (token_expiry_spec aliceId "d1" "k" "nonce1" 0).2 d1Session
    ⟨"alice", "nonce1", "d1", 0, 2592000⟩ 2592001 (by decide)

/-- C8: deleting an account record fires the `delete_sessions` event, so a
session that referenced the deleted account can no longer be looked up by
its device-keyed record id (session ids are unique in the store). -/
theorem delete_account_cascades (db : DB) (aid rid : RecordID)
    (b : Account) (s : Session)
    (hnodup : (db.sessions.map Session.id).Nodup)
    (hacc : Account.get_by_id db aid = some b)
    (hs : Session.get_by_id db rid = some s)
    (hown : s.account = aid) :
    Session.get_by_id (db.delete_account aid).2 rid = none := by
  have hfind : db.accounts.find? (fun a => decide (a.id = some aid)) = some b :=
    hacc
  have hs' : List.find? (fun t => decide (t.id = rid)) db.sessions = some s :=
    hs
  have hsmem : s ∈ db.sessions := List.mem_of_find?_eq_some hs'
  have hsid : s.id = rid := by
    have h := List.find?_some hs'
    simpa using h
  simp only [DB.delete_account, hfind, DB.delete_sessions_event,
    Session.get_by_id]
  rw [List.find?_eq_none]
  intro x hx hpx
  have hx' := List.mem_filter.mp hx
  have hxid : x.id = rid := of_decide_eq_true hpx
  have hxacc : ¬ x.account = aid := of_decide_eq_true hx'.2
  have hxeq : x = s :=
    List.inj_on_of_nodup_map hnodup hx'.1 hsmem (hxid.trans hsid.symm)
  rw [hxeq] at hxacc
  exact hxacc hown

/-- Witness for C8: deleting alice's account from a concrete store removes
her `d1` session, so the lookup returns absent. -/
theorem delete_account_cascades_witness :
    Session.get_by_id
      (DB.delete_account ⟨[aliceAccount], [d1Session]⟩ aliceId).2
      ⟨"session", "d1"⟩ = none :=
  delete_account_cascades ⟨[aliceAccount], [d1Session]⟩ aliceId
    ⟨"session", "d1"⟩ aliceAccount d1Session (by decide) (by decide)
    (by decide) rfl

/-- A sample session for device `d1` that names a different owning
account. -/
def bobSession : Session := { d1Session with account := ⟨"account", "bob"⟩ }

/-- C9: when login authenticates an account and a session already exists
under the presented device id, login refreshes and stores that session and
returns its token, without comparing the session's `account` field to the
authenticated account: the stored session keeps its old `account` field,
whatever account it names. -/
theorem login_reuses_existing_session (db : DB) (data : Login)
    (key nonce : String) (now : Nat) (account : Account) (aid : RecordID)
    (s : Session)
    (hacc : Account.get_by_identity db data.identity = some account)
    (hid : account.id = some aid)
    (hpw : verify_password data.password account.password = .ok true)
    (hs : Session.get_by_id db ⟨"session", data.device_id⟩ = some s) :
    login db data key nonce now =
      .ok (db.upsert_session { s.refresh nonce now with updated_at := now },
        { message := "Logged in successfully."
          data := some { user_id := aid.id, username := account.username,
                         token := (s.refresh nonce now).token }
          code := 0 }) ∧
    Session.get_by_id
      (db.upsert_session { s.refresh nonce now with updated_at := now })
      ⟨"session", data.device_id⟩ =
      some { s.refresh nonce now with updated_at := now } ∧
    ({ s.refresh nonce now with updated_at := now } : Session).account =
      s.account := by
  have hs' : List.find?
      (fun t => decide (t.id = (⟨"session", data.device_id⟩ : RecordID)))
      db.sessions = some s := hs
  have hsid : s.id = ⟨"session", data.device_id⟩ := by
    have h := List.find?_some hs'
    simpa using h
  refine ⟨?_, ?_, rfl⟩
  · simp [login, hacc, hid, hpw, hs, Session.refresh_and_save_on,
      Session.save_on]
  · simp only [Session.get_by_id, DB.upsert_session]
    rw [List.find?_cons_of_pos]
    exact decide_eq_true (by simp [Session.refresh, hsid])

/-- Witness for C9: alice authenticates while the `d1` session names bob;
login leaves the stored session's account field pointing at bob. -/
theorem login_reuses_existing_session_witness :
    ({ bobSession.refresh "nonce2" 7 with updated_at := 7 } : Session).account =
      ⟨"account", "bob"⟩ :=
  (login_reuses_existing_session ⟨[aliceAccount], [bobSession]⟩
    ⟨"alice01", "longpassword1", "d1"⟩ "key2" "nonce2" 7 aliceAccount aliceId
    bobSession (by decide) rfl rfl (by decide)).2.2
